import Mathlib

/-!
# Verification of the transmission-proxy RPC mediation engine

Shallow embedding of the RPC mediation engine of `transmission-proxy`:
the RPC data model (`src/rpc.rs`), the ACL and tracker-rule types
(`src/acl.rs`), the request/response filter pipeline and mediator
(`src/rpc/proxy.rs`), and the OAuth2-aware ACL resolver
(`crates/transmission-proxy/src/acl.rs`).

External libraries are modelled as interfaces:
* `regex::Regex` is modelled by its observable `replace` behaviour;
* `serde_json::Value` (for response `arguments`) is modelled at the
  granularity the proxy observes: whether a value decodes as `Torrents`,
  as `SessionArguments`, or as neither;
* the upstream HTTP exchange used by the target-set probe is a function
  from the probe's `TorrentGet` arguments to an outcome;
* the base64 / bencode codecs used by `torrent-add` are a record of
  fallible functions.

Structures with many fields the proxy never touches (`SessionArguments`,
`TorrentSet`, `TorrentAdd`, ...) keep exactly the fields the filter
pipeline reads or writes; the remaining fields, which serde carries
through verbatim, are collapsed into an abstract `extra : Nat` component.
-/

namespace TransmissionProxy

deriving instance DecidableEq for Except

/-! ### String primitives

Character-exact models of the Rust `str` operations the proxy uses
(`starts_with`, `ends_with`, `strip_suffix`), defined over the
character list of a `String` so that they reduce inside the kernel. -/

/-- Rust `str::starts_with` on string prefixes. -/
def strStartsWith (s pat : String) : Bool :=
  pat.data.isPrefixOf s.data

/-- Rust `str::ends_with` on string suffixes. -/
def strEndsWith (s pat : String) : Bool :=
  pat.data.reverse.isPrefixOf s.data.reverse

/-! ## RPC data model (src/rpc.rs) -/

/-- `TorrentId`: a torrent selector element, either a numeric id or a
40-hex sha1 string (src/rpc.rs, `enum TorrentId`). -/
inductive TorrentId where
  | id (n : Int)
  | sha1 (s : String)
deriving DecidableEq, Repr

/-- `TorrentIdSet`: the literal token `recently-active`
(src/rpc.rs, `enum TorrentIdSet`). -/
inductive TorrentIdSet where
  | recentlyActive
deriving DecidableEq, Repr

/-- `TorrentIds`: a target selector — a single id, a list of ids/hashes,
or `recently-active` (src/rpc.rs, `enum TorrentIds`). -/
inductive TorrentIds where
  | id (n : Int)
  | ids (l : List TorrentId)
  | set (s : TorrentIdSet)
deriving DecidableEq, Repr

/-- `Torrent` as modelled from upstream responses: `id`, `downloadDir`,
and a flattened map of arbitrary additional fields (src/rpc.rs,
`struct Torrent`); the additional fields are collapsed into `extra`. -/
structure Torrent where
  id : TorrentId
  download_dir : String
  extra : Nat := 0
deriving DecidableEq, Repr

/-- `Torrents`: the `torrents` list of a torrent-get response plus
flattened extra fields (src/rpc.rs, `struct Torrents`). -/
structure Torrents where
  torrents : List Torrent
  extra : Nat := 0
deriving DecidableEq, Repr

/-- `SessionArguments` (src/rpc.rs): only `download_dir` is ever read or
written by the filter pipeline; the several dozen remaining settings
fields are collapsed into `extra`. -/
structure SessionArguments where
  download_dir : String
  extra : Nat := 0
deriving DecidableEq, Repr

/-- Model of `serde_json::Value` for response `arguments`, at the
granularity the proxy observes: a value that decodes as `Torrents`, one
that decodes as `SessionArguments`, or any other JSON value (abstracted
by a `Nat` tag). -/
inductive JsonValue where
  | torrents (t : Torrents)
  | session (s : SessionArguments)
  | other (n : Nat)
deriving DecidableEq, Repr

/-- `serde_json::from_value::<Torrents>`: succeeds exactly on values that
decode as `Torrents`. -/
def parseTorrents : JsonValue → Except Unit Torrents
  | .torrents t => .ok t
  | _ => .error ()

/-- `serde_json::from_value::<SessionArguments>`: succeeds exactly on
values that decode as `SessionArguments`. -/
def parseSession : JsonValue → Except Unit SessionArguments
  | .session s => .ok s
  | _ => .error ()

/-- `ResponseStatus` (src/rpc.rs): `"success"` or a failure string. -/
inductive ResponseStatus where
  | success
  | failure (s : String)
deriving DecidableEq, Repr

/-- `RawResponse` (src/rpc.rs): tag, uninterpreted JSON arguments,
result. -/
structure RawResponse where
  tag : Option Int := none
  arguments : Option JsonValue := none
  result : ResponseStatus
deriving DecidableEq, Repr

/-- `ResponseKind` (src/rpc.rs): the typed response arguments. The
`sessionStats` payload is abstracted (the filter never touches it). -/
inductive ResponseKind where
  | torrents (t : Torrents)
  | session (s : SessionArguments)
  | sessionStats (n : Nat)
  | other (extra : JsonValue)
deriving DecidableEq, Repr

/-- `Response` (src/rpc.rs): the typed response envelope. Both `tag` and
`arguments` carry serde's `skip_serializing_if = Option::is_none`. -/
structure Response where
  tag : Option Int := none
  arguments : Option ResponseKind := none
  result : ResponseStatus
deriving DecidableEq, Repr

/-- The list of top-level keys serde emits when serializing a `Response`:
`tag` and `arguments` are skipped when `None`
(src/rpc.rs, `#[serde(skip_serializing_if = "Option::is_none")]`),
`result` is always emitted. -/
def Response.serializedKeys (r : Response) : List String :=
  (if r.tag.isSome then ["tag"] else [])
    ++ (if r.arguments.isSome then ["arguments"] else [])
    ++ ["result"]

/-- `TorrentAction` (src/rpc.rs): arguments of torrent-start,
torrent-start-now, torrent-stop, torrent-verify, torrent-reannounce. -/
structure TorrentAction where
  ids : Option TorrentIds := none
deriving DecidableEq, Repr

/-- `TorrentSet` (src/rpc.rs): only the fields the filter pipeline reads
or writes are kept (`ids`, `location`, `trackerAdd`, `trackerRemove`,
`trackerReplace`); the remaining settings fields are collapsed into
`extra`. -/
structure TorrentSet where
  ids : Option TorrentIds := none
  location : Option String := none
  tracker_add : List String := []
  tracker_remove : List String := []
  tracker_replace : List String := []
  extra : Nat := 0
deriving DecidableEq, Repr

/-- `TorrentGetFormat` (src/rpc.rs). -/
inductive TorrentGetFormat where
  | objects
  | table
deriving DecidableEq, Repr

instance : Inhabited TorrentGetFormat := ⟨.objects⟩

/-- `TorrentGet` (src/rpc.rs). -/
structure TorrentGet where
  ids : Option TorrentIds := none
  fields : List String := []
  format : TorrentGetFormat := .objects
deriving DecidableEq, Repr

/-- `TorrentAdd` (src/rpc.rs): only `download_dir` and `metainfo` are
read or written by the filter pipeline; the rest is collapsed into
`extra`. -/
structure TorrentAdd where
  download_dir : String
  metainfo : String
  extra : Nat := 0
deriving DecidableEq, Repr

/-- `TorrentRemove` (src/rpc.rs). -/
structure TorrentRemove where
  ids : Option TorrentIds := none
  delete_local_data : Option Bool := none
deriving DecidableEq, Repr

/-- `TorrentSetLocation` (src/rpc.rs). -/
structure TorrentSetLocation where
  ids : Option TorrentIds := none
  location : String
  move_data : Bool := false
deriving DecidableEq, Repr

/-- `TorrentRenamePath` (src/rpc.rs). -/
structure TorrentRenamePath where
  ids : Option TorrentIds := none
  path : String
  name : String
deriving DecidableEq, Repr

/-- `SessionSet` (src/rpc.rs): the filter never touches its fields; they
are collapsed into `extra`. -/
structure SessionSet where
  extra : Nat := 0
deriving DecidableEq, Repr

/-- `SessionGet` (src/rpc.rs). -/
structure SessionGet where
  fields : List String := []
deriving DecidableEq, Repr

/-- `QueueMovement` (src/rpc.rs): arguments of the queue-move methods. -/
structure QueueMovement where
  ids : Option TorrentIds := none
deriving DecidableEq, Repr

/-- `FreeSpace` (src/rpc.rs). -/
structure FreeSpace where
  path : String
deriving DecidableEq, Repr

/-- `MethodCall` (src/rpc.rs): the tagged union over all RPC methods. -/
inductive MethodCall where
  | torrentStart (arguments : TorrentAction)
  | torrentStartNow (arguments : TorrentAction)
  | torrentStop (arguments : TorrentAction)
  | torrentVerify (arguments : TorrentAction)
  | torrentReannounce (arguments : TorrentAction)
  | torrentSet (arguments : TorrentSet)
  | torrentGet (arguments : TorrentGet)
  | torrentAdd (arguments : TorrentAdd)
  | torrentRemove (arguments : TorrentRemove)
  | torrentSetLocation (arguments : TorrentSetLocation)
  | torrentRenamePath (arguments : TorrentRenamePath)
  | sessionSet (arguments : SessionSet)
  | sessionGet (arguments : SessionGet)
  | sessionStats
  | blocklistUpdate
  | portTest
  | sessionClose
  | queueMoveTop (arguments : QueueMovement)
  | queueMoveUp (arguments : QueueMovement)
  | queueMoveDown (arguments : QueueMovement)
  | queueMoveBottom (arguments : QueueMovement)
  | freeSpace (arguments : FreeSpace)
deriving DecidableEq, Repr

/-- `MethodName` (src/rpc.rs, strum `EnumDiscriminants` of `MethodCall`):
the payload-free method discriminant used in `acl.allowed_methods`. -/
inductive MethodName where
  | torrentStart
  | torrentStartNow
  | torrentStop
  | torrentVerify
  | torrentReannounce
  | torrentSet
  | torrentGet
  | torrentAdd
  | torrentRemove
  | torrentSetLocation
  | torrentRenamePath
  | sessionSet
  | sessionGet
  | sessionStats
  | blocklistUpdate
  | portTest
  | sessionClose
  | queueMoveTop
  | queueMoveUp
  | queueMoveDown
  | queueMoveBottom
  | freeSpace
deriving DecidableEq, Repr

/-- The discriminant of a method call (`(&request.call).into()` via
strum). -/
def MethodCall.methodName : MethodCall → MethodName
  | .torrentStart _ => .torrentStart
  | .torrentStartNow _ => .torrentStartNow
  | .torrentStop _ => .torrentStop
  | .torrentVerify _ => .torrentVerify
  | .torrentReannounce _ => .torrentReannounce
  | .torrentSet _ => .torrentSet
  | .torrentGet _ => .torrentGet
  | .torrentAdd _ => .torrentAdd
  | .torrentRemove _ => .torrentRemove
  | .torrentSetLocation _ => .torrentSetLocation
  | .torrentRenamePath _ => .torrentRenamePath
  | .sessionSet _ => .sessionSet
  | .sessionGet _ => .sessionGet
  | .sessionStats => .sessionStats
  | .blocklistUpdate => .blocklistUpdate
  | .portTest => .portTest
  | .sessionClose => .sessionClose
  | .queueMoveTop _ => .queueMoveTop
  | .queueMoveUp _ => .queueMoveUp
  | .queueMoveDown _ => .queueMoveDown
  | .queueMoveBottom _ => .queueMoveBottom
  | .freeSpace _ => .freeSpace

/-- The kebab-case wire name of a method (serde `rename_all =
"kebab-case"` on `MethodName`). -/
def MethodName.kebab : MethodName → String
  | .torrentStart => "torrent-start"
  | .torrentStartNow => "torrent-start-now"
  | .torrentStop => "torrent-stop"
  | .torrentVerify => "torrent-verify"
  | .torrentReannounce => "torrent-reannounce"
  | .torrentSet => "torrent-set"
  | .torrentGet => "torrent-get"
  | .torrentAdd => "torrent-add"
  | .torrentRemove => "torrent-remove"
  | .torrentSetLocation => "torrent-set-location"
  | .torrentRenamePath => "torrent-rename-path"
  | .sessionSet => "session-set"
  | .sessionGet => "session-get"
  | .sessionStats => "session-stats"
  | .blocklistUpdate => "blocklist-update"
  | .portTest => "port-test"
  | .sessionClose => "session-close"
  | .queueMoveTop => "queue-move-top"
  | .queueMoveUp => "queue-move-up"
  | .queueMoveDown => "queue-move-down"
  | .queueMoveBottom => "queue-move-bottom"
  | .freeSpace => "free-space"

/-- `Request` (src/rpc.rs): a method call plus an optional tag. -/
structure Request where
  call : MethodCall
  tag : Option Int := none
deriving DecidableEq, Repr

/-! ## ACL and tracker rules (src/acl.rs) -/

/-- Model of `regex::Regex`, observed through its replace behaviour:
`replace haystack rep` is `Regex::replace(haystack, rep).to_string()`,
i.e. the haystack with the leftmost match replaced by the expanded
template (the haystack unchanged when there is no match). -/
structure Regex where
  replace : String → String → String

/-- `AclIdentity` (src/acl.rs). -/
inductive AclIdentity where
  | basic (name : String)
  | oauth2 (name : String) (oauth2 : String)
deriving DecidableEq, Repr

/-- `TrackerRule` (src/acl.rs): currently a single `Replace` variant
holding a compiled regex and a replacement template. -/
inductive TrackerRule where
  | replace (from_ : Regex) (to_ : String)

/-- `TrackerRule::matches` (src/acl.rs): currently true for every rule. -/
def TrackerRule.matches : TrackerRule → String → Bool
  | .replace _ _, _ => true

/-- `TrackerRule::apply` (src/acl.rs): for the `Replace` variant, always
`Some` of the regex replacement result. -/
def TrackerRule.apply : TrackerRule → String → Option String
  | .replace from_ to_, announce => some (from_.replace announce to_)

/-- `Acl` (src/acl.rs): one ACL rule. `identities` is a `HashSet` in the
source; it is modelled as a list (only emptiness and membership are ever
observed). -/
structure Acl where
  identities : List AclIdentity := []
  download_dir : Option String := none
  allowed_methods : List MethodName := []
  deny : Bool := false
  tracker_rules : List TrackerRule := []

/-! ## Metainfo torrent (crate::torrent::Torrent)

Modelled from the spec: `src/torrent.rs` is not present under `src/`;
the shape of `crate::torrent::Torrent` is reconstructed from its uses in
`src/rpc/proxy.rs` (`torrent.announce : Option<String>`,
`torrent.announce_list : Option<Vec<Vec<String>>>`) and from spec §3
(all other bencoded keys are preserved verbatim, collapsed here into
`extra`). -/

/-- `crate::torrent::Torrent`: a decoded bencoded metainfo dictionary. -/
structure TorrentMeta where
  announce : Option String := none
  announce_list : Option (List (List String)) := none
  extra : Nat := 0
deriving DecidableEq, Repr

/-! ## Filter errors (src/rpc/proxy.rs, `FilterErrorKind` and friends) -/

/-- `FilterErrorKind` (src/rpc/proxy.rs). The wrapped library errors
(`serde_bencode::Error`, `base64::DecodeError`, `serde_json::Error`,
`hyper::Error`) never influence behaviour beyond the kind itself, so
their payloads are dropped; `Unsupported` keeps its reason string, which
appears in the RPC result message. -/
inductive FilterErrorKind where
  | unsupported (reason : String)
  | forbidden
  | torrent
  | base64
  | parseBody
  | serde
  | upstream
  | upstreamUnknown
deriving DecidableEq, Repr

/-- `FilterError` (src/rpc/proxy.rs): a kind plus the original request
tag. -/
structure FilterError where
  tag : Option Int := none
  kind : FilterErrorKind
deriving DecidableEq, Repr

/-- The HTTP status chosen for each error kind
(src/rpc/proxy.rs, `impl From<FilterError> for hyper::Response`). -/
def FilterErrorKind.status : FilterErrorKind → Nat
  | .unsupported _ => 501
  | .forbidden => 403
  | .torrent | .base64 | .parseBody => 400
  | .serde => 500
  | .upstream => 503
  | .upstreamUnknown => 502

/-- The Display string of each error kind (src/rpc/proxy.rs, thiserror
`#[error]` attributes on `FilterErrorKind`). -/
def FilterErrorKind.message : FilterErrorKind → String
  | .unsupported reason => "unsupported: " ++ reason
  | .forbidden => "access denied"
  | .torrent => "torrent error"
  | .base64 => "base64 error"
  | .parseBody => "could not parse request body"
  | .serde => "could not decode body"
  | .upstream => "upstream error"
  | .upstreamUnknown => "unknown upstream error"

/-- The RPC-shaped failure body built from a `FilterError`
(src/rpc/proxy.rs, `From<FilterError>`): the original tag, no arguments,
and the kind's Display string as the failure result. -/
def FilterError.responseBody (e : FilterError) : Response :=
  { tag := e.tag, arguments := none, result := .failure e.kind.message }

/-! ## Target-set capability (src/rpc/proxy.rs, `HasTorrentIds` and
`MaybeTorrentIds`) -/

/-- The `HasTorrentIds` capability of one method call: whether filtering
happens on the response instead, the current ids, and the writeback of
new ids into the call (`ids_mut`). -/
structure IdsCapability where
  filtersOnResponse : Bool
  ids : Option TorrentIds
  setIds : Option TorrentIds → MethodCall

/-- `MaybeTorrentIds for MethodCall` (src/rpc/proxy.rs): the methods that
expose a torrent-ids capability. Every other method — including the four
queue-move methods — falls into the wildcard arm and exposes none. -/
def MethodCall.torrent_ids : MethodCall → Option IdsCapability
  | .torrentStart a => some ⟨false, a.ids, fun i => .torrentStart { a with ids := i }⟩
  | .torrentStartNow a => some ⟨false, a.ids, fun i => .torrentStartNow { a with ids := i }⟩
  | .torrentStop a => some ⟨false, a.ids, fun i => .torrentStop { a with ids := i }⟩
  | .torrentVerify a => some ⟨false, a.ids, fun i => .torrentVerify { a with ids := i }⟩
  | .torrentReannounce a => some ⟨false, a.ids, fun i => .torrentReannounce { a with ids := i }⟩
  | .torrentSet a => some ⟨false, a.ids, fun i => .torrentSet { a with ids := i }⟩
  | .torrentGet a => some ⟨true, a.ids, fun i => .torrentGet { a with ids := i }⟩
  | .torrentRemove a => some ⟨false, a.ids, fun i => .torrentRemove { a with ids := i }⟩
  | .torrentSetLocation a => some ⟨false, a.ids, fun i => .torrentSetLocation { a with ids := i }⟩
  | .torrentRenamePath a => some ⟨false, a.ids, fun i => .torrentRenamePath { a with ids := i }⟩
  | _ => none

/-! ## Target-set resolver (src/rpc/proxy.rs, `filter_torrent_ids`) -/

/-- Outcome of the upstream target-set probe, as the proxy can observe
it: a transport failure (`hyper::Error`), a body that does not parse as
`RawResponse` (`serde_json` failure), or a parsed `RawResponse`. -/
inductive ProbeOutcome where
  | transportError
  | unparseable
  | response (r : RawResponse)

/-- `RpcProxyClient::filter_torrent_ids` (src/rpc/proxy.rs). The
upstream exchange is modelled by `probe`, a function from the probing
`torrent-get` arguments to an outcome. Returns the new value for the
call's `ids` field. Note that the probe response's torrents are mapped
to their ids wholesale — no `downloadDir` test is applied to them. -/
def filter_torrent_ids (probe : TorrentGet → ProbeOutcome)
    (cap : IdsCapability) : Except FilterErrorKind (Option TorrentIds) :=
  if cap.filtersOnResponse then
    .ok cap.ids
  else
    let input := cap.ids
    match probe { ids := input, fields := ["id", "downloadDir"], format := .objects } with
    | .transportError => .error .upstream
    | .unparseable => .error .serde
    | .response response =>
      match response.arguments with
      | none => .error .upstreamUnknown
      | some v =>
        match parseTorrents v with
        | .error _ => .error .serde
        | .ok torrents =>
          .ok (some (.ids (torrents.torrents.map (fun torrent => torrent.id))))

/-! ## Tracker filtering (src/rpc/proxy.rs, `filter_tracker` and
`filter_tracker_list`) -/

/-- `RpcProxyClient::filter_tracker` (src/rpc/proxy.rs): fold the rules
over one optional announce URL; a rule that does not match is skipped,
a rule whose `apply` returns `None` removes the URL, and once the URL is
`None` the iteration breaks. -/
def filter_tracker (tracker : Option String) : List TrackerRule → Option String
  | [] => tracker
  | rule :: rest =>
    match tracker with
    | none => none
    | some announce =>
      if !rule.matches announce then
        filter_tracker (some announce) rest
      else
        match rule.apply announce with
        | some result => filter_tracker (some result) rest
        | none => filter_tracker none rest

/-- `RpcProxyClient::filter_tracker_list` (src/rpc/proxy.rs): apply
`filter_tracker` to each URL, keeping the survivors in order. -/
def filter_tracker_list (tracker_list : List String)
    (tracker_rules : List TrackerRule) : List String :=
  tracker_list.filterMap (fun item => filter_tracker (some item) tracker_rules)

/-! ## Prefix check (src/rpc/proxy.rs, `prefix_ok`) -/

/-- `RpcProxyClient::prefix_ok` (src/rpc/proxy.rs): with no
`download_dir` everything passes; otherwise the location must start with
the download dir extended to end with a single trailing slash. -/
def prefix_ok (location : String) (acl : Acl) : Bool :=
  match acl.download_dir with
  | some download_dir =>
    let pfx := if strEndsWith download_dir "/" then download_dir
               else download_dir ++ "/"
    strStartsWith location pfx
  | none => true

/-! ## Request filter (src/rpc/proxy.rs, `do_filter_request`) -/

/-- The base64 and bencode codecs used by the `torrent-add` metainfo
rewrite, modelled as an interface: `base64::decode`,
`serde_bencode::de::from_bytes::<Torrent>`,
`serde_bencode::ser::to_bytes`, `base64::encode`. Byte strings are
abstracted as `List Nat`. -/
structure Codecs where
  base64Decode : String → Except Unit (List Nat)
  bencodeDecode : List Nat → Except Unit TorrentMeta
  bencodeEncode : TorrentMeta → Except Unit (List Nat)
  base64Encode : List Nat → String

/-- The per-method tail of `RpcProxyClient::do_filter_request`
(src/rpc/proxy.rs, the big `match &mut request.call`), entered after the
allow-list check and the target-set expansion. -/
def do_filter_request_methods (codecs : Codecs) (request : Request)
    (acl : Acl) : Except FilterErrorKind Request :=
  match request.call with
  | .torrentStart _ | .torrentStartNow _ | .torrentStop _
  | .torrentVerify _ | .torrentReannounce _ | .torrentRemove _ => .ok request
  | .queueMoveTop _ | .queueMoveUp _ | .queueMoveDown _
  | .queueMoveBottom _ => .ok request
  | .torrentSet arguments =>
    if (match arguments.location with
        | some new_location => !prefix_ok new_location acl
        | none => false) then
      .error .forbidden
    else if !acl.tracker_rules.isEmpty then
      let tracker_add := filter_tracker_list arguments.tracker_add acl.tracker_rules
      let tracker_remove := filter_tracker_list arguments.tracker_remove acl.tracker_rules
      if !arguments.tracker_replace.isEmpty then
        .error (.unsupported "trackerReplace in torrent-set")
      else
        let newArgs := { arguments with
          tracker_add := tracker_add, tracker_remove := tracker_remove }
        .ok { request with call := MethodCall.torrentSet newArgs }
    else
      .ok request
  | .torrentSetLocation arguments =>
    if !prefix_ok arguments.location acl then .error .forbidden
    else .ok request
  | .torrentRenamePath _ => .ok request
  | .sessionSet _ | .sessionGet _ | .sessionStats | .blocklistUpdate
  | .portTest | .sessionClose | .freeSpace _ => .ok request
  | .torrentGet _ => .ok request
  | .torrentAdd arguments =>
    if !prefix_ok arguments.download_dir acl then .error .forbidden
    else if !acl.tracker_rules.isEmpty then
      if !(arguments.metainfo == "") then
        match codecs.base64Decode arguments.metainfo with
        | .error _ => .error .base64
        | .ok bytes =>
          match codecs.bencodeDecode bytes with
          | .error _ => .error .torrent
          | .ok torrent =>
            let torrent := { torrent with
              announce_list := torrent.announce_list.map
                (fun (list : List (List String)) => list.map
                  (fun sublist => filter_tracker_list sublist acl.tracker_rules)) }
            let torrent := { torrent with
              announce := filter_tracker torrent.announce acl.tracker_rules }
            match codecs.bencodeEncode torrent with
            | .error _ => .error .torrent
            | .ok out_bytes =>
              let newArgs := { arguments with
                metainfo := codecs.base64Encode out_bytes }
              .ok { request with call := MethodCall.torrentAdd newArgs }
      else
        .error (.unsupported "magnet links")
    else
      .ok request

/-- `RpcProxyClient::do_filter_request` (src/rpc/proxy.rs): allow-list
check first, then target-set expansion when the ACL forces a download
dir and the method exposes ids, then the per-method policy. -/
def do_filter_request (probe : TorrentGet → ProbeOutcome) (codecs : Codecs)
    (request : Request) (acl : Acl) : Except FilterErrorKind Request :=
  if !acl.allowed_methods.isEmpty
      && !acl.allowed_methods.contains request.call.methodName then
    .error .forbidden
  else
    let idsFiltered : Except FilterErrorKind Request :=
      if acl.download_dir.isSome then
        match request.call.torrent_ids with
        | some cap =>
          match filter_torrent_ids probe cap with
          | .ok new_ids => .ok { request with call := cap.setIds new_ids }
          | .error e => .error e
        | none => .ok request
      else
        .ok request
    match idsFiltered with
    | .error e => .error e
    | .ok request => do_filter_request_methods codecs request acl

/-- `RpcProxyClient::filter_request` (src/rpc/proxy.rs): wrap the error
kind with the original request tag. -/
def filter_request (probe : TorrentGet → ProbeOutcome) (codecs : Codecs)
    (request : Request) (acl : Acl) : Except FilterError Request :=
  match do_filter_request probe codecs request acl with
  | .ok r => .ok r
  | .error kind => .error { tag := request.tag, kind := kind }

/-! ## Response filter (src/rpc/proxy.rs, `do_filter_response`) -/

/-- Strip one trailing `/` if present
(`strip_suffix('/').unwrap_or(...)` in src/rpc/proxy.rs). -/
def stripTrailingSlash (s : String) : String :=
  if strEndsWith s "/" then String.mk s.data.dropLast else s

/-- The torrent-get retention predicate of `do_filter_response`: the
torrent's `downloadDir`, with any trailing `/` stripped, starts with the
ACL's download dir. -/
def torrentSurvives (download_dir : String) (torrent : Torrent) : Bool :=
  strStartsWith (stripTrailingSlash torrent.download_dir) download_dir

/-- `RpcProxyClient::do_filter_response` (src/rpc/proxy.rs). With a
forced download dir, torrent-get responses are retained-filtered and
session-get responses get their download dir overwritten, both with the
request's tag; every other case falls through to a passthrough carrying
the upstream response's tag. -/
def do_filter_response (request : Request) (response : RawResponse)
    (acl : Acl) : Except FilterErrorKind Response :=
  let fallthrough : Except FilterErrorKind Response :=
    .ok { tag := response.tag,
          arguments := response.arguments.map (fun raw => ResponseKind.other raw),
          result := response.result }
  match acl.download_dir with
  | some download_dir =>
    match request.call with
    | .torrentGet _ =>
      match response.arguments with
      | some torrent_get_raw =>
        match parseTorrents torrent_get_raw with
        | .error _ => .error .serde
        | .ok torrents =>
          .ok { tag := request.tag,
                arguments := some (.torrents { torrents with
                  torrents := torrents.torrents.filter (torrentSurvives download_dir) }),
                result := response.result }
      | none => fallthrough
    | .sessionGet _ =>
      match response.arguments with
      | some session_arguments_raw =>
        match parseSession session_arguments_raw with
        | .error _ => .error .serde
        | .ok session =>
          .ok { tag := request.tag,
                arguments := some (.session { session with download_dir := download_dir }),
                result := response.result }
      | none => fallthrough
    | _ => fallthrough
  | none => fallthrough

/-- `RpcProxyClient::filter_response` (src/rpc/proxy.rs): wrap the error
kind with the request tag. -/
def filter_response (request : Request) (response : RawResponse)
    (acl : Acl) : Except FilterError Response :=
  match do_filter_response request response acl with
  | .ok r => .ok r
  | .error kind => .error { tag := request.tag, kind := kind }

/-! ## Mediator (src/rpc/proxy.rs, `forward_rpc_request_acl` and
`handle_request`) -/

/-- Upstream body bytes, as the proxy can observe them: bytes that parse
as a `RawResponse`, or bytes that do not (abstracted by a `Nat` tag). -/
inductive BodyBytes where
  | rawResponse (r : RawResponse)
  | unparseable (n : Nat)
deriving DecidableEq, Repr

/-- A serialized HTTP body produced by the mediator: either the upstream
bytes relayed unchanged, or the reserialization of a filtered (or error)
`Response`. -/
inductive OutBody where
  | original (b : BodyBytes)
  | filtered (r : Response)
deriving DecidableEq, Repr

/-- An HTTP response leaving the mediator: status, headers, body. -/
structure HttpOut where
  status : Nat
  headers : List (String × String) := []
  body : OutBody
deriving Repr

/-- `HeaderMap::remove(CONTENT_LENGTH)`. -/
def removeContentLength (headers : List (String × String)) : List (String × String) :=
  headers.filter (fun h => h.1 != "content-length")

/-- `From<FilterError> for hyper::Response` (src/rpc/proxy.rs): the
taxonomy status and the serialized error body, with no headers. -/
def FilterError.httpResponse (e : FilterError) : HttpOut :=
  { status := e.kind.status, headers := [], body := .filtered e.responseBody }

/-- The request-phase outcome of `forward_rpc_request_acl`: either an
error response produced without contacting upstream, or the filtered
request that is forwarded upstream. -/
inductive MediatorStep where
  | reject (out : HttpOut)
  | forward (filtered : Request)

/-- The request phase of `RpcProxyClient::forward_rpc_request_acl`
(src/rpc/proxy.rs, up to the upstream fetch): parse the body (a parse
failure yields a tagless `ParseBody` error response), run the request
filter (a filter error yields its error response), otherwise forward
the filtered request. -/
def forward_request_phase (probe : TorrentGet → ProbeOutcome)
    (codecs : Codecs) (parsed : Except Unit Request) (acl : Acl) :
    MediatorStep :=
  match parsed with
  | .error _ =>
    .reject (FilterError.httpResponse { tag := none, kind := .parseBody })
  | .ok rpc_request =>
    match filter_request probe codecs rpc_request acl with
    | .error err => .reject err.httpResponse
    | .ok request => .forward request

/-- The response phase of `RpcProxyClient::forward_rpc_request_acl`
(src/rpc/proxy.rs, after the upstream fetch): a 409 skips all filtering
and its body is relayed unchanged; otherwise a body parsing as a
`RawResponse` is run through the response filter (errors become error
responses) and reserialized, and an unparseable body is relayed
unchanged. In every relay the upstream status and headers are kept,
minus `Content-Length`. -/
def forward_response_phase (request : Request) (acl : Acl)
    (status : Nat) (headers : List (String × String)) (body : BodyBytes) :
    HttpOut :=
  if status != 409 then
    match body with
    | .rawResponse rpc_response =>
      match filter_response request rpc_response acl with
      | .ok resp =>
        { status := status, headers := removeContentLength headers,
          body := .filtered resp }
      | .error err => err.httpResponse
    | .unparseable n =>
      { status := status, headers := removeContentLength headers,
        body := .original (.unparseable n) }
  else
    { status := status, headers := removeContentLength headers,
      body := .original body }

/-- The header transformation applied to a client RPC request before it
is forwarded upstream (`handle_request` removes `Host` and
`Accept-Encoding`, `forward_rpc_request_acl` removes `Content-Length`;
src/rpc/proxy.rs). No header is ever added: in particular the mediator
holds no session-token state (`RpcProxyClient` has only the `upstream`
URI and the connection pool as fields, and all its methods take
`&self`), so no `X-Transmission-Session-Id` header is inserted. -/
def forwardedRpcHeaders (headers : List (String × String)) :
    List (String × String) :=
  ((headers.filter (fun h => h.1 != "host")).filter
      (fun h => h.1 != "accept-encoding")).filter
    (fun h => h.1 != "content-length")

/-! ## OAuth2-aware ACL resolver
(crates/transmission-proxy/src/acl.rs) -/

namespace Crates

/-- `AuthUser` (crates/transmission-proxy/src/auth.rs). -/
inductive AuthUser where
  | anonymous
  | basic (username : String) (password : Option String)
  | oauth2 (username : String) (provider : String)
deriving DecidableEq, Repr

/-- The Basic-identity matcher used in `Acls::get`
(crates/transmission-proxy/src/acl.rs): an `AclIdentity::Basic` whose
name equals the username. -/
def identityMatchesBasic (username : String) : AclIdentity → Bool
  | .basic name => name == username
  | _ => false

/-- The OAuth2-identity matcher used in `Acls::get`
(crates/transmission-proxy/src/acl.rs): an `AclIdentity::OAuth2` whose
name and provider both match. -/
def identityMatchesOAuth2 (username provider : String) : AclIdentity → Bool
  | .oauth2 name oa => name == username && oa == provider
  | _ => false

/-- `Acls` (crates/transmission-proxy/src/acl.rs): the ordered rule
list. The per-rule types are shared with the `src/acl.rs` model — the
two files declare identical `Acl`, `AclIdentity` and `TrackerRule`
shapes. -/
structure Acls where
  rules : List Acl

/-- `Acls::get_anon` (crates/transmission-proxy/src/acl.rs): the first
rule with an empty identity set. -/
def Acls.get_anon (acls : Acls) : Option Acl :=
  acls.rules.find? (fun acl => acl.identities.isEmpty)

/-- `Acls::get` (crates/transmission-proxy/src/acl.rs). The Basic
password verification (`providers.basic.auth`) is modelled by the
`auth` function. Note the `?` operator on the Basic identity lookup:
when no rule carries a matching Basic identity the function returns
`None` at once, skipping the `.or_else(get_anon)` fallback that the
other arms flow into. -/
def Acls.get (acls : Acls) (user : AuthUser)
    (auth : String → String → Bool) : Option Acl :=
  match user with
  | .anonymous => (none : Option Acl).orElse (fun _ => acls.get_anon)
  | .basic username password =>
    match acls.rules.find?
        (fun acl => acl.identities.any (identityMatchesBasic username)) with
    | none => none
    | some basic_user =>
      (match password with
       | some pwd => if auth username pwd then some basic_user else none
       | none => some basic_user).orElse (fun _ => acls.get_anon)
  | .oauth2 username provider =>
    (acls.rules.find?
        (fun acl => acl.identities.any
          (identityMatchesOAuth2 username provider))).orElse
      (fun _ => acls.get_anon)

end Crates

/-! ## Concrete fixtures

Closed values used by witnesses and counterexamples; drawn from the
literal scenarios of spec §8. -/

/-- The ACL of spec scenario 3: forced download dir `/data/bob`. -/
def aclBob : Acl := { download_dir := some "/data/bob" }

/-- An ACL whose allow-list contains only `torrent-get`
(spec scenario 2). -/
def aclGetOnly : Acl := { allowed_methods := [.torrentGet] }

/-- The upstream of spec scenario 3: the probe returns torrents
`[{id 10, downloadDir "/data/bob/"}, {id 11, downloadDir "/data/alice"}]`. -/
def probeBob : TorrentGet → ProbeOutcome := fun _ =>
  .response { arguments := some (.torrents { torrents :=
    [ { id := .id 10, download_dir := "/data/bob/" },
      { id := .id 11, download_dir := "/data/alice" } ] }), result := .success }

/-- An upstream whose probe always fails with a transport error: any
request-filter run that consults it at all must fail with `Upstream`. -/
def probeFail : TorrentGet → ProbeOutcome := fun _ => .transportError

/-- Trivial codecs (never consulted by the fixtures that use them). -/
def codecs0 : Codecs :=
  { base64Decode := fun _ => .error (), bencodeDecode := fun _ => .error (),
    bencodeEncode := fun _ => .error (), base64Encode := fun _ => "" }

/-- The replace behaviour of the regex `^http://x$`: a haystack equal to
`http://x` is replaced by the (group-free) template, anything else is
left unchanged. -/
def regexHttpX : Regex :=
  { replace := fun haystack rep => if haystack = "http://x" then rep else haystack }

/-- A tracker rule whose rewrite result is the empty string: `Replace`
with pattern `^http://x$` and empty template. -/
def ruleEmptyRewrite : TrackerRule := .replace regexHttpX ""

/-- The upstream torrent-get response of spec scenario 6. -/
def rawTorrentsBobAlice : RawResponse :=
  { tag := some 42,
    arguments := some (.torrents { torrents :=
      [ { id := .id 1, download_dir := "/data/bob" },
        { id := .id 2, download_dir := "/data/alice" } ] }),
    result := .success }

/-- The claim's reading of the prefix check, following the spec words:
true iff `D` is absent, or `path` starts with `D` followed by `/`, or
`path` equals `D` (the claimed empty-dir case). Stated for comparison
with the source's `prefix_ok`. -/
def prefix_ok_claim (path : String) (download_dir : Option String) : Bool :=
  match download_dir with
  | none => true
  | some D => strStartsWith path (D ++ "/") || path == D

/-- An anonymous-default ACL rule (empty identity set). -/
def anonRule : Acl := { identities := [] }

/-- A rule carrying the Basic identity `bob`. -/
def bobRule : Acl := { identities := [.basic "bob"] }

/-- A rule list with a Basic rule for `bob` followed by an
anonymous-default rule. -/
def aclsBobAnon : Crates.Acls := { rules := [bobRule, anonRule] }

/-! ## Claims -/

/-- C1. The claim states that the target-set resolver keeps only the
probe-returned torrents whose `downloadDir` (trailing `/` stripped) has
prefix `D`. The code does not: `filter_torrent_ids` maps every torrent
of the probe response to its id, never reading `downloadDir`. On the
spec's own scenario 3 (ACL dir `/data/bob`, probe returning id 10 at
`/data/bob/` and id 11 at `/data/alice`), the forwarded `torrent-stop`
selector is `[10, 11]`, although torrent 11 does not survive the prefix
test — the spec says it must be `[10]`. -/
theorem c1_target_set_expansion_keeps_unauthorized_ids :
    do_filter_request probeBob codecs0
        { call := .torrentStop { ids := some (.set .recentlyActive) },
          tag := some 3 } aclBob
      = .ok { call := .torrentStop { ids := some (.ids [.id 10, .id 11]) },
              tag := some 3 }
  ∧ torrentSurvives "/data/bob"
      { id := .id 11, download_dir := "/data/alice" } = false := by
  refine ⟨by decide, by decide⟩

/-- C2, counterexample. The claim's reading of the prefix check accepts
a path equal to the download dir (`prefix_ok_claim`), but the source's
`prefix_ok` rejects it: with `D = "/data/bob"` the required prefix is
`"/data/bob/"`, which the bare path `"/data/bob"` does not start
with. -/
theorem c2_counterexample :
    prefix_ok_claim "/data/bob" (some "/data/bob") = true
  ∧ aclBob.download_dir = some "/data/bob"
  ∧ prefix_ok "/data/bob" aclBob = false := by
  refine ⟨by decide, rfl, by decide⟩

/-- C2, amended. `prefix_ok path acl` is true iff the ACL's download
dir is absent, or the path starts with the download dir extended with a
trailing `/` when it lacks one (a path exactly equal to a download dir
without trailing slash is rejected); a `torrent-add` whose
`download_dir` fails the check is rejected with Forbidden
unconditionally, and a `torrent-set-location` whose `location` fails
the check is rejected with Forbidden whenever the preceding target-set
probe delivers a torrent list. -/
theorem c2_prefix_check_amended :
    (∀ location acl, prefix_ok location acl = true ↔
        (acl.download_dir = none ∨ ∃ D, acl.download_dir = some D ∧
          strStartsWith location
            (if strEndsWith D "/" then D else D ++ "/") = true))
  ∧ (∀ (probe : TorrentGet → ProbeOutcome) (codecs : Codecs)
        (args : TorrentAdd) (tag : Option Int) (acl : Acl),
      prefix_ok args.download_dir acl = false →
      do_filter_request probe codecs { call := .torrentAdd args, tag := tag } acl
        = .error .forbidden)
  ∧ (∀ (probe : TorrentGet → ProbeOutcome) (codecs : Codecs)
        (args : TorrentSetLocation) (tag : Option Int) (acl : Acl),
      prefix_ok args.location acl = false →
      (∀ tg, ∃ r ts, probe tg = .response r ∧
        r.arguments = some (JsonValue.torrents ts)) →
      do_filter_request probe codecs
          { call := .torrentSetLocation args, tag := tag } acl
        = .error .forbidden) := by
  refine ⟨?_, ?_, ?_⟩
  · intro location acl
    cases hdd : acl.download_dir with
    | none => simp [prefix_ok, hdd]
    | some D => simp [prefix_ok, hdd]
  · intro probe codecs args tag acl hpre
    by_cases hallow : (!acl.allowed_methods.isEmpty
        && !acl.allowed_methods.contains (MethodCall.torrentAdd args).methodName) = true
    · simp only [do_filter_request, hallow]
      simp
    · simp [do_filter_request, hallow, MethodCall.torrent_ids,
        do_filter_request_methods, hpre]
  · intro probe codecs args tag acl hpre hprobe
    by_cases hallow : (!acl.allowed_methods.isEmpty
        && !acl.allowed_methods.contains
            (MethodCall.torrentSetLocation args).methodName) = true
    · simp only [do_filter_request, hallow]
      simp
    · have hdd : ∃ D, acl.download_dir = some D := by
        cases hdd : acl.download_dir with
        | none => simp [prefix_ok, hdd] at hpre
        | some D => exact ⟨D, rfl⟩
      obtain ⟨D, hdd⟩ := hdd
      obtain ⟨r, ts, hp, hargs⟩ := hprobe
        { ids := args.ids, fields := ["id", "downloadDir"], format := .objects }
      simp [do_filter_request, hallow, hdd, MethodCall.torrent_ids,
        filter_torrent_ids, hp, hargs, parseTorrents,
        do_filter_request_methods, hpre]

/-- C2, witness: the amended theorem evaluated on spec fixtures — an
in-dir path passes the check, a `torrent-add` aimed at `/data/alice`
under the `/data/bob` ACL is Forbidden, and so is a
`torrent-set-location`. -/
theorem c2_prefix_check_amended_witness :
    prefix_ok "/data/bob/x" aclBob = true
  ∧ do_filter_request probeBob codecs0
        { call := .torrentAdd { download_dir := "/data/alice", metainfo := "" },
          tag := some 1 } aclBob
      = .error .forbidden
  ∧ do_filter_request probeBob codecs0
        { call := .torrentSetLocation { location := "/data/alice" },
          tag := some 2 } aclBob
      = .error .forbidden := by
  refine ⟨?_, ?_, ?_⟩
  · exact (c2_prefix_check_amended.1 "/data/bob/x" aclBob).mpr
      (.inr ⟨"/data/bob", rfl, by decide⟩)
  · exact c2_prefix_check_amended.2.1 probeBob codecs0 _ (some 1) aclBob (by decide)
  · exact c2_prefix_check_amended.2.2 probeBob codecs0 _ (some 2) aclBob (by decide)
      (fun tg => ⟨_, _, rfl, rfl⟩)

/-- C3. Under an ACL whose non-empty allow-list omits the request's
method, the request filter fails with Forbidden for every probe and
every codec (so no target-set probe and no tracker rewrite can have
taken place), and the mediator's request phase rejects with the
Forbidden error response instead of forwarding upstream. -/
theorem c3_allowlist_gates_first (probe : TorrentGet → ProbeOutcome)
    (codecs : Codecs) (request : Request) (acl : Acl)
    (hne : acl.allowed_methods ≠ [])
    (hnm : request.call.methodName ∉ acl.allowed_methods) :
    do_filter_request probe codecs request acl = .error .forbidden ∧
    forward_request_phase probe codecs (.ok request) acl
      = .reject (FilterError.httpResponse
          { tag := request.tag, kind := .forbidden }) := by
  have h1 : acl.allowed_methods.isEmpty = false := by
    simp [List.isEmpty_iff, hne]
  have h2 : acl.allowed_methods.contains request.call.methodName = false := by
    simp [List.contains]
    exact hnm
  have hfilter : do_filter_request probe codecs request acl = .error .forbidden := by
    simp [do_filter_request, h1, h2]
    intro h
    exact absurd h hnm
  refine ⟨hfilter, ?_⟩
  simp [forward_request_phase, filter_request, hfilter, FilterError.httpResponse]

/-- C3, witness: spec scenario 2 — a `session-stats` call under an
allow-list of `[torrent-get]` is rejected with the tagged Forbidden
response. -/
theorem c3_allowlist_gates_first_witness :
    do_filter_request probeFail codecs0
        { call := .sessionStats, tag := some 7 } aclGetOnly
      = .error .forbidden ∧
    forward_request_phase probeFail codecs0
        (.ok { call := .sessionStats, tag := some 7 }) aclGetOnly
      = .reject (FilterError.httpResponse
          { tag := some 7, kind := .forbidden }) :=
  c3_allowlist_gates_first probeFail codecs0 _ _ (by decide) (by decide)

/-- C4. For a torrent-get response under an ACL forcing download dir
`D`, when the upstream arguments decode as `Torrents` the filtered
response keeps exactly the torrents surviving the prefix test, carries
the request's tag, and every returned torrent's `downloadDir` (trailing
`/` stripped) starts with `D`. -/
theorem c4_torrent_get_response_filtered (request : Request)
    (targs : TorrentGet) (response : RawResponse) (acl : Acl) (D : String)
    (ts : Torrents)
    (hacl : acl.download_dir = some D)
    (hcall : request.call = .torrentGet targs)
    (hargs : response.arguments = some (.torrents ts)) :
    do_filter_response request response acl
      = .ok { tag := request.tag,
              arguments := some (.torrents { ts with
                torrents := ts.torrents.filter (torrentSurvives D) }),
              result := response.result }
    ∧ ∀ t ∈ ts.torrents.filter (torrentSurvives D),
        strStartsWith (stripTrailingSlash t.download_dir) D = true := by
  constructor
  · simp [do_filter_response, hacl, hcall, hargs, parseTorrents]
  · intro t ht
    have := List.of_mem_filter ht
    simpa [torrentSurvives] using this

/-- C4, witness: spec scenario 6 — from torrents at `/data/bob` and
`/data/alice`, only the first survives, with the request tag 42. -/
theorem c4_torrent_get_response_filtered_witness :
    do_filter_response { call := .torrentGet {}, tag := some 42 }
        rawTorrentsBobAlice aclBob
      = .ok { tag := some 42,
              arguments := some (.torrents { torrents :=
                [ { id := .id 1, download_dir := "/data/bob" } ] }),
              result := .success }
    ∧ ∀ t ∈ ([ { id := TorrentId.id 1, download_dir := "/data/bob" },
                { id := .id 2, download_dir := "/data/alice" } ] : List Torrent).filter
          (torrentSurvives "/data/bob"),
        strStartsWith (stripTrailingSlash t.download_dir) "/data/bob" = true := by
  have h := c4_torrent_get_response_filtered
    { call := .torrentGet {}, tag := some 42 } {} rawTorrentsBobAlice aclBob
    "/data/bob"
    { torrents := [ { id := .id 1, download_dir := "/data/bob" },
                    { id := .id 2, download_dir := "/data/alice" } ] }
    rfl rfl rfl
  constructor
  · rw [h.1]
    decide
  · exact h.2

/-- C5. The claim states that queue-move requests have their ids
selector expanded by the target-set resolver. The code's
`MaybeTorrentIds` dispatch returns `None` for all four queue-move
methods (they fall into the wildcard arm), so no expansion and no probe
happens: under the `/data/bob` ACL and an upstream whose probe would
fail with a transport error, a `queue-move-top` request passes through
unchanged — had a probe been issued, the filter would have failed with
`Upstream`. This contradicts the code's own comment that queue actions
"were authorized by filter_torrent_ids". -/
theorem c5_queue_move_not_expanded :
    MethodCall.torrent_ids (.queueMoveTop { ids := some (.ids [.id 5]) }) = none
  ∧ do_filter_request probeFail codecs0
        { call := .queueMoveTop { ids := some (.ids [.id 5]) }, tag := some 1 }
        aclBob
      = .ok { call := .queueMoveTop { ids := some (.ids [.id 5]) },
              tag := some 1 } := by
  refine ⟨rfl, by decide⟩

/-- C6, counterexample. A `session-stats` request with tag 7 whose
upstream response omits the tag: the filtered response's tag is `none`,
not the request's tag 7, refuting the claim that the response filter
sets the tag to the request's tag for every method. -/
theorem c6_counterexample :
    do_filter_response { call := .sessionStats, tag := some 7 }
        { tag := none, arguments := none, result := .success } aclBob
      = .ok { tag := none, arguments := none, result := .success }
  ∧ (do_filter_response { call := .sessionStats, tag := some 7 }
        { tag := none, arguments := none, result := .success } aclBob).map
        Response.tag
      ≠ .ok (some 7) := by
  constructor
  · rfl
  · decide

/-- C6, amended. The response filter sets the outgoing tag to the
request's tag only in its two rewriting branches — torrent-get and
session-get under an ACL with a download dir, with upstream arguments
present and decodable; in every other successful case (no download dir,
any other method, or absent upstream arguments) the upstream response's
own tag is passed through. -/
theorem c6_tag_propagation_amended :
    (∀ request response acl out, acl.download_dir = none →
        do_filter_response request response acl = .ok out → out.tag = response.tag)
  ∧ (∀ request response acl out,
        (∀ targs, request.call ≠ .torrentGet targs) →
        (∀ sargs, request.call ≠ .sessionGet sargs) →
        do_filter_response request response acl = .ok out → out.tag = response.tag)
  ∧ (∀ request response acl out, response.arguments = none →
        do_filter_response request response acl = .ok out → out.tag = response.tag)
  ∧ (∀ request response acl out D targs ts, acl.download_dir = some D →
        request.call = .torrentGet targs →
        response.arguments = some (.torrents ts) →
        do_filter_response request response acl = .ok out → out.tag = request.tag)
  ∧ (∀ request response acl out D sargs ss, acl.download_dir = some D →
        request.call = .sessionGet sargs →
        response.arguments = some (.session ss) →
        do_filter_response request response acl = .ok out → out.tag = request.tag) := by
  refine ⟨?_, ?_, ?_, ?_, ?_⟩
  · intro request response acl out hdd h
    simp [do_filter_response, hdd] at h
    simp [← h]
  · intro request response acl out hng hns h
    rcases hdd : acl.download_dir with _ | D
    · simp [do_filter_response, hdd] at h
      simp [← h]
    · cases hc : request.call
      case torrentGet targs => exact absurd hc (hng targs)
      case sessionGet sargs => exact absurd hc (hns sargs)
      all_goals simp [do_filter_response, hdd, hc] at h
      all_goals simp [← h]
  · intro request response acl out hargs h
    rcases hdd : acl.download_dir with _ | D
    · simp [do_filter_response, hdd] at h
      simp [← h]
    · cases hc : request.call <;>
        simp [do_filter_response, hdd, hc, hargs] at h <;> simp [← h]
  · intro request response acl out D targs ts hdd hc hargs h
    simp [do_filter_response, hdd, hc, hargs, parseTorrents] at h
    simp [← h]
  · intro request response acl out D sargs ss hdd hc hargs h
    simp [do_filter_response, hdd, hc, hargs, parseSession] at h
    simp [← h]

/-- C6, witness: the rewritten torrent-get case keeps the request tag
42 (spec scenario 6), and the passthrough case keeps the upstream tag
(here `none`). -/
theorem c6_tag_propagation_amended_witness :
    Response.tag
      { tag := some 42,
        arguments := some (.torrents { torrents :=
          [ { id := .id 1, download_dir := "/data/bob" } ] }),
        result := .success } = some 42
  ∧ Response.tag
      { tag := (none : Option Int), arguments := none,
        result := ResponseStatus.success } = none := by
  constructor
  · exact c6_tag_propagation_amended.2.2.2.1
      { call := .torrentGet {}, tag := some 42 } rawTorrentsBobAlice aclBob _
      "/data/bob" {}
      { torrents := [ { id := .id 1, download_dir := "/data/bob" },
                      { id := .id 2, download_dir := "/data/alice" } ] }
      rfl rfl rfl (by decide)
  · exact c6_tag_propagation_amended.2.1
      { call := .sessionStats, tag := some 7 }
      { tag := none, arguments := none, result := .success } aclBob _
      (fun targs h => MethodCall.noConfusion h)
      (fun sargs h => MethodCall.noConfusion h) rfl

/-- C7, counterexample. The claim requires failure bodies to contain
the keys `tag` and `arguments` with null values when absent; serde's
`skip_serializing_if = Option::is_none` omits them instead: the
Forbidden body with tag 7 serializes the keys `[tag, result]` (no
`arguments`), and with no tag only `[result]`. -/
theorem c7_counterexample :
    (FilterError.responseBody { tag := some 7, kind := .forbidden }).serializedKeys
      = ["tag", "result"]
  ∧ "arguments" ∉ (FilterError.responseBody
      { tag := some 7, kind := .forbidden }).serializedKeys
  ∧ (FilterError.responseBody { tag := none, kind := .forbidden }).serializedKeys
      = ["result"] := by
  refine ⟨by decide, by decide, by decide⟩

/-- C7, amended. The HTTP status taxonomy is as claimed (501, 403,
400, 400, 400, 500, 503, 502); the failure body is the RPC-shaped
response with the original tag, no arguments, and the kind's message as
failure result — but its serialization omits the `arguments` key
always, and the `tag` key when the tag is absent; and the mediator's
request phase rejects a filter error with exactly that status and
body. -/
theorem c7_error_taxonomy_amended :
    (∀ s, FilterErrorKind.status (.unsupported s) = 501)
  ∧ FilterErrorKind.status .forbidden = 403
  ∧ FilterErrorKind.status .torrent = 400
  ∧ FilterErrorKind.status .base64 = 400
  ∧ FilterErrorKind.status .parseBody = 400
  ∧ FilterErrorKind.status .serde = 500
  ∧ FilterErrorKind.status .upstream = 503
  ∧ FilterErrorKind.status .upstreamUnknown = 502
  ∧ (∀ e : FilterError, (FilterError.responseBody e).serializedKeys
       = (if e.tag.isSome then ["tag"] else []) ++ ["result"])
  ∧ (∀ (probe : TorrentGet → ProbeOutcome) (codecs : Codecs)
        (request : Request) (acl : Acl) (kind : FilterErrorKind),
      do_filter_request probe codecs request acl = .error kind →
      forward_request_phase probe codecs (.ok request) acl
        = .reject { status := kind.status, headers := [],
                    body := .filtered { tag := request.tag, arguments := none,
                                        result := .failure kind.message } }) := by
  refine ⟨fun s => rfl, rfl, rfl, rfl, rfl, rfl, rfl, rfl, ?_, ?_⟩
  · intro e
    simp [FilterError.responseBody, Response.serializedKeys]
  · intro probe codecs request acl kind h
    simp [forward_request_phase, filter_request, h, FilterError.httpResponse,
      FilterError.responseBody]

/-- C7, witness: the unsupported status, the Forbidden body keys, and
the mediator rejecting spec scenario 2 with 403 and the
`access denied` body. -/
theorem c7_error_taxonomy_amended_witness :
    FilterErrorKind.status (.unsupported "magnet links") = 501 ∧
    (FilterError.responseBody { tag := some 7, kind := .forbidden }).serializedKeys
      = ["tag", "result"] ∧
    forward_request_phase probeFail codecs0
        (.ok { call := .sessionStats, tag := some 7 }) aclGetOnly
      = .reject { status := 403, headers := [],
                  body := .filtered { tag := some 7, arguments := none,
                                      result := .failure "access denied" } } := by
  refine ⟨c7_error_taxonomy_amended.1 "magnet links", ?_, ?_⟩
  · have h := c7_error_taxonomy_amended.2.2.2.2.2.2.2.2.1
      { tag := some 7, kind := .forbidden }
    simpa using h
  · have h := c7_error_taxonomy_amended.2.2.2.2.2.2.2.2.2 probeFail codecs0
      { call := .sessionStats, tag := some 7 } aclGetOnly .forbidden (by decide)
    simpa using h

/-- C8, counterexample. A 409 reply carrying the session header is
relayed as a pure function of the upstream response — the mediator has
no session-token state to capture into (`RpcProxyClient` holds only the
upstream URI and connection pool) — and the next forwarded request's
headers are the client's own minus Host, Accept-Encoding and
Content-Length: a client request without the session header is
forwarded without it, refuting the claim that the next forwarded
request carries the token `abc` seen in the 409. -/
theorem c8_counterexample :
    forward_response_phase { call := .sessionStats, tag := some 1 } aclBob 409
        [("x-transmission-session-id", "abc")] (.unparseable 0)
      = { status := 409, headers := [("x-transmission-session-id", "abc")],
          body := .original (.unparseable 0) }
  ∧ (forwardedRpcHeaders [("accept", "application/json")]).lookup
      "x-transmission-session-id" = none := by
  constructor
  · rfl
  · rfl

/-- C8, amended. On an upstream 409 the mediator skips response
filtering entirely and relays the status and body unchanged (only the
Content-Length header is dropped); and the mediator never adds a header
to a forwarded request — the forwarded header list is a sublist of the
client's — so the session token reaching upstream is the one supplied
by the retrying client, not proxy state. -/
theorem c8_session_handshake_amended :
    (∀ (request : Request) (acl : Acl) (headers : List (String × String))
        (body : BodyBytes),
      forward_response_phase request acl 409 headers body
        = { status := 409, headers := removeContentLength headers,
            body := .original body })
  ∧ (∀ headers, (forwardedRpcHeaders headers).Sublist headers) := by
  constructor
  · intro request acl headers body
    rfl
  · intro headers
    exact ((List.filter_sublist _).trans (List.filter_sublist _)).trans
      (List.filter_sublist _)

/-- C9, counterexample. `TrackerRule::apply` never signals removal: for
the rule `Replace ^http://x$ → ""` (regex modelled by its replace
behaviour) the empty rewrite result is `some ""`, and
`filter_tracker_list` keeps the empty string in the list instead of
dropping the URL, refuting the claim that an empty rewrite result
signals removal. -/
theorem c9_counterexample :
    TrackerRule.apply ruleEmptyRewrite "http://x" = some ""
  ∧ filter_tracker_list ["http://x"] [ruleEmptyRewrite] = [""] := ⟨rfl, rfl⟩

/-- C9, amended. `TrackerRule.apply` always produces a rewritten URL
(`some`), even when the rewrite result is empty — removal is never
signalled by the current `Replace` rule kind; the removal-halting logic
of `filter_tracker` does exist (once the URL is `None` every remaining
rule is skipped and the result stays `None`), but with the present rule
kind no URL is ever dropped: `filter_tracker` on a present URL always
returns `some`, and `filter_tracker_list` preserves the list length. -/
theorem c9_tracker_rule_amended :
    (∀ (rule : TrackerRule) (url : String), ∃ s, rule.apply url = some s)
  ∧ (∀ rules, filter_tracker none rules = none)
  ∧ (∀ rules url, ∃ s, filter_tracker (some url) rules = some s)
  ∧ (∀ urls rules, (filter_tracker_list urls rules).length = urls.length) := by
  have happly : ∀ (rule : TrackerRule) (url : String), ∃ s, rule.apply url = some s := by
    intro rule url
    cases rule with
    | replace from_ to_ => exact ⟨_, rfl⟩
  have hnone : ∀ rules, filter_tracker none rules = none := by
    intro rules
    cases rules <;> rfl
  have hsome : ∀ rules url, ∃ s, filter_tracker (some url) rules = some s := by
    intro rules
    induction rules with
    | nil => intro url; exact ⟨url, rfl⟩
    | cons rule rest ih =>
      intro url
      obtain ⟨s, hs⟩ := happly rule url
      cases rule with
      | replace from_ to_ =>
        simp [filter_tracker, TrackerRule.matches, TrackerRule.apply]
        exact ih _
  refine ⟨happly, hnone, hsome, ?_⟩
  intro urls rules
  induction urls with
  | nil => rfl
  | cons url rest ih =>
    obtain ⟨s, hs⟩ := hsome rules url
    simp [filter_tracker_list] at ih ⊢
    simp [hs]
    exact ih

/-- C10. In the OAuth2-aware resolver, a Basic identity matched by no
rule returns `None` at once — the `?` operator skips the anonymous
fallback even when an anonymous-default rule exists; the anonymous
fallback is reached exactly on Basic password-verification failure, on
an OAuth2 identity miss, and for the Anonymous identity; and a matched
Basic rule is returned directly when no password was presented or
verification succeeds. -/
theorem c10_acl_resolver_fallback :
    (∀ (acls : Crates.Acls) (username : String) (password : Option String)
        (auth : String → String → Bool),
      (∀ r ∈ acls.rules, ∀ i ∈ r.identities,
        Crates.identityMatchesBasic username i = false) →
      Crates.Acls.get acls (.basic username password) auth = none)
  ∧ (∀ (acls : Crates.Acls) (username pwd : String)
        (auth : String → String → Bool) (rule : Acl),
      acls.rules.find?
          (fun acl => acl.identities.any (Crates.identityMatchesBasic username))
        = some rule →
      auth username pwd = false →
      Crates.Acls.get acls (.basic username (some pwd)) auth = acls.get_anon)
  ∧ (∀ (acls : Crates.Acls) (username provider : String)
        (auth : String → String → Bool),
      acls.rules.find?
          (fun acl => acl.identities.any
            (Crates.identityMatchesOAuth2 username provider))
        = none →
      Crates.Acls.get acls (.oauth2 username provider) auth = acls.get_anon)
  ∧ (∀ (acls : Crates.Acls) (auth : String → String → Bool),
      Crates.Acls.get acls .anonymous auth = acls.get_anon)
  ∧ (∀ (acls : Crates.Acls) (username : String)
        (auth : String → String → Bool) (rule : Acl),
      acls.rules.find?
          (fun acl => acl.identities.any (Crates.identityMatchesBasic username))
        = some rule →
      Crates.Acls.get acls (.basic username none) auth = some rule)
  ∧ (∀ (acls : Crates.Acls) (username pwd : String)
        (auth : String → String → Bool) (rule : Acl),
      acls.rules.find?
          (fun acl => acl.identities.any (Crates.identityMatchesBasic username))
        = some rule →
      auth username pwd = true →
      Crates.Acls.get acls (.basic username (some pwd)) auth = some rule) := by
  refine ⟨?_, ?_, ?_, ?_, ?_, ?_⟩
  · intro acls username password auth hmiss
    have hfind : acls.rules.find?
        (fun acl => acl.identities.any (Crates.identityMatchesBasic username))
        = none := by
      refine List.find?_eq_none.mpr (fun r hr => ?_)
      intro hcontra
      simp only [List.any_eq_true] at hcontra
      obtain ⟨i, hi, hm⟩ := hcontra
      rw [hmiss r hr i hi] at hm
      exact Bool.false_ne_true hm
    simp [Crates.Acls.get, hfind]
  · intro acls username pwd auth rule hfind hauth
    simp [Crates.Acls.get, hfind, hauth, Option.orElse]
  · intro acls username provider auth hfind
    simp [Crates.Acls.get, hfind, Option.orElse]
  · intro acls auth
    simp [Crates.Acls.get, Option.orElse]
  · intro acls username auth rule hfind
    simp [Crates.Acls.get, hfind, Option.orElse]
  · intro acls username pwd auth rule hfind hauth
    simp [Crates.Acls.get, hfind, hauth, Option.orElse]

/-- C10, witness: the rule list `[bob-rule, anon-rule]` — an unknown
Basic user gets `None` despite the anonymous rule; bob with a failing
password, an OAuth2 miss, and the Anonymous identity all fall back to
the anonymous rule; bob without password (token auth) and bob with a
verified password get the bob rule. -/
theorem c10_acl_resolver_fallback_witness :
    Crates.Acls.get aclsBobAnon (.basic "carol" none) (fun _ _ => true) = none
  ∧ Crates.Acls.get aclsBobAnon (.basic "bob" (some "pw")) (fun _ _ => false)
      = aclsBobAnon.get_anon
  ∧ Crates.Acls.get aclsBobAnon (.oauth2 "bob" "gh") (fun _ _ => true)
      = aclsBobAnon.get_anon
  ∧ Crates.Acls.get aclsBobAnon .anonymous (fun _ _ => true)
      = aclsBobAnon.get_anon
  ∧ Crates.Acls.get aclsBobAnon (.basic "bob" none) (fun _ _ => false)
      = some bobRule
  ∧ Crates.Acls.get aclsBobAnon (.basic "bob" (some "pw")) (fun _ _ => true)
      = some bobRule := by
  refine ⟨?_, ?_, ?_, ?_, ?_, ?_⟩
  · exact c10_acl_resolver_fallback.1 aclsBobAnon "carol" none _
      (by decide)
  · exact c10_acl_resolver_fallback.2.1 aclsBobAnon "bob" "pw" _ bobRule rfl rfl
  · exact c10_acl_resolver_fallback.2.2.1 aclsBobAnon "bob" "gh" _ rfl
  · exact c10_acl_resolver_fallback.2.2.2.1 aclsBobAnon _
  · exact c10_acl_resolver_fallback.2.2.2.2.1 aclsBobAnon "bob" _ bobRule rfl
  · exact c10_acl_resolver_fallback.2.2.2.2.2 aclsBobAnon "bob" "pw" _ bobRule rfl rfl

end TransmissionProxy
